import Mathlib

/-!
Verification development for the `forecast` repository: a shallow embedding of
its evaluation/orchestration core (splitter, metric computation, model
contract, training cache, cross-model comparison) together with theorems
settling the specification's claims about it.

Conventions of the embedding:
* a time series is a list of (timestamp, value) pairs with timestamps as `ℤ`
  (e.g. days since an epoch) and values as `ℚ`;
* where only the values matter (metrics, the orchestrator pipeline) a series
  is a `List ℚ`;
* Python floats that a metric function may return are modelled by `PyFloat`,
  which distinguishes NaN and the infinities from finite numbers;
* fallible Python code is `Except`/`Option`; a raised exception is an
  `Except.error`;
* the internal numerical fitting engines (statsmodels ARIMA, Prophet, darts
  N-BEATS) are opaque per the spec; they appear as function parameters
  producing the forecast values, while all guard, date-sequence and shaping
  logic is translated from the repository's own code.
-/

/-- Result of a Python metric function, distinguishing the degenerate IEEE
values that `calculate_metrics` filters out (`np.isnan` / `np.isinf`). -/
inductive PyFloat where
  | num (q : ℚ)
  | nan
  | inf
  | ninf
deriving DecidableEq

/-- Check mirroring `np.isnan(value) or np.isinf(value)` in
`utils/model_evaluation.py`. -/
def PyFloat.isNanOrInf : PyFloat → Bool
  | PyFloat.num _ => false
  | PyFloat.nan => true
  | PyFloat.inf => true
  | PyFloat.ninf => true

/-- The `float(value)` conversion applied to a finite metric result; the
degenerate cases never reach it in `calculate_metrics`. -/
def PyFloat.toRat : PyFloat → ℚ
  | PyFloat.num q => q
  | _ => 0

/-- A metric function `(actual, predicted) -> float`; `Except.error` models a
raised exception. -/
abbrev MetricFn := List ℚ → List ℚ → Except Unit PyFloat

/-- Embedding of `calculate_metrics` from `src/utils/model_evaluation.py`
(lines 22-47): for each metric function, call it inside try/except; store
`None` when it raises or returns NaN/Infinity, otherwise `float(value)`.
The Python dict of results is an association list in insertion order. -/
def calculate_metrics (actual predicted : List ℚ)
    (metric_functions : List (String × MetricFn)) : List (String × Option ℚ) :=
  metric_functions.map fun nf =>
    match nf.2 actual predicted with
    | Except.ok value =>
        if value.isNanOrInf then (nf.1, none) else (nf.1, some value.toRat)
    | Except.error _ => (nf.1, none)

/-- The failure condition of one metric: its function raises, or returns
NaN/Infinity. Used to characterise when `calculate_metrics` stores `None`. -/
def metricFails (f : MetricFn) (actual predicted : List ℚ) : Bool :=
  match f actual predicted with
  | Except.ok value => value.isNanOrInf
  | Except.error _ => true

/-- Embedding of the `train_pct` validation in `HoldoutPctSplitter.__init__`
(`src/splitters/holdoutpct.py` lines 17-20): raises `ValueError` (the code's
rendering of `InvalidConfiguration`) unless `0 < train_pct < 100`. -/
def HoldoutPctSplitter.init (train_pct : ℤ) : Except Unit ℤ :=
  if 0 < train_pct ∧ train_pct < 100 then Except.ok train_pct
  else Except.error ()

/-- Embedding of the split index of `HoldoutPctSplitter.split`
(`src/splitters/holdoutpct.py` line 41):
`max(1, min(n - 1, int(n * train_pct / 100)))`.
Python's `int(n * train_pct / 100)` truncates the float quotient; for the
integer inputs in range here this equals natural-number division
`n * train_pct / 100`. Python's `n - 1` at `n = 0` is `-1` and the inner
`min` then yields a negative which `max 1` absorbs, so truncated `ℕ`
subtraction gives the same final index. -/
def HoldoutPctSplitter.splitIdx (n train_pct : ℕ) : ℕ :=
  max 1 (min (n - 1) (n * train_pct / 100))

/-- Embedding of `HoldoutPctSplitter.split` (`src/splitters/holdoutpct.py`
lines 38-45): `train = data.iloc[:split_idx]`, `test = data.iloc[split_idx:]`. -/
def HoldoutPctSplitter.split (train_pct : ℕ) (data : List α) : List α × List α :=
  (data.take (HoldoutPctSplitter.splitIdx data.length train_pct),
   data.drop (HoldoutPctSplitter.splitIdx data.length train_pct))

/-- The split index as the specification's words describe it:
`clamp(round(n * train_pct/100), lower=1, upper=n-1)` with rounding to the
nearest integer. Stated for comparison with `HoldoutPctSplitter.splitIdx`,
which is the code's truncating version. -/
def HoldoutPctSplitter.splitIdxRoundSpec (n train_pct : ℕ) : ℕ :=
  max 1 (min (n - 1) (round ((n * train_pct : ℚ) / 100)).toNat)

/-- The splitter as the specification's words describe it, using the
round-to-nearest split index. Stated for comparison with
`HoldoutPctSplitter.split`. -/
def HoldoutPctSplitter.splitRoundSpec (train_pct : ℕ) (data : List α) :
    List α × List α :=
  (data.take (HoldoutPctSplitter.splitIdxRoundSpec data.length train_pct),
   data.drop (HoldoutPctSplitter.splitIdxRoundSpec data.length train_pct))

/-- The polymorphic model contract of `src/models/base.py`: `fit` consumes the
prior internal state of the instance (`none` for a freshly constructed model)
and the training values and produces a fitted state; `predict` produces a
value series of the requested length from a fitted state. -/
structure ForecastModel (σ : Type) where
  fit : Option σ → List ℚ → σ
  predict : σ → ℕ → List ℚ

/-- Embedding of `ForecastModel.evaluate` (`src/models/base.py` lines 44-79),
with the mutation of `self` made explicit as state threading:
split, fit on train, predict `len(test)`, compute metrics, re-fit on the full
data, predict `horizon`, return `(metrics, forecast, test_predictions)`. -/
def ForecastModel.evaluate {σ : Type} (m : ForecastModel σ) (s0 : Option σ)
    (data : List ℚ) (splitter : List ℚ → List ℚ × List ℚ) (horizon : ℕ)
    (metric_functions : List (String × MetricFn)) :
    List (String × Option ℚ) × List ℚ × List ℚ :=
  let td := splitter data
  let train_data := td.1
  let test_data := td.2
  let s1 := m.fit s0 train_data
  let test_predictions := m.predict s1 test_data.length
  let metrics := calculate_metrics test_data test_predictions metric_functions
  let s2 := m.fit (some s1) data
  let forecast := m.predict s2 horizon
  (metrics, forecast, test_predictions)

/-- The loop body of `calculate_metrics` factored as a function of a single
(name, metric function) pair, for stating that each output entry depends only
on its own metric. -/
def metricEntry (actual predicted : List ℚ) (nf : String × MetricFn) :
    String × Option ℚ :=
  match nf.2 actual predicted with
  | Except.ok value =>
      if value.isNanOrInf then (nf.1, none) else (nf.1, some value.toRat)
  | Except.error _ => (nf.1, none)

/-- The trivial repeat-last-value stand-in model of the spec's concrete test
scenario: fit stores the training values (discarding any prior state), predict
repeats the last stored value. -/
def lastValueModel : ForecastModel (List ℚ) where
  fit := fun _ data => data
  predict := fun s h => List.replicate h (s.getLast?.getD 0)

/-- The state every concrete variant stores at fit time for use by `predict`:
`self._last_date = data.index[-1]` and
`self._freq = pd.infer_freq(data.index) or 'D'`, with timestamps and the
frequency step as integers (days). -/
structure FitState where
  lastDate : ℤ
  freq : ℤ
deriving DecidableEq

/-- The two failure modes of `predict` in every variant; both are raised as
Python `ValueError`, distinguished by message: the spec's
`InvalidConfiguration` is the horizon guard, `NotFittedError` the
unfitted-model guard. -/
inductive ForecastError where
  | invalidConfiguration
  | notFitted
deriving DecidableEq

/-- Embedding of the date bookkeeping shared by every variant's `fit`
(e.g. `src/models/arima.py` lines 39-46): store the last training timestamp
and the inferred frequency with daily (step 1) fallback. The numerical
training itself is opaque; an empty series makes `data.index[-1]` raise,
modelled as `none`. `infer_freq` stands for `pd.infer_freq`. -/
def ARIMAForecaster.fit (infer_freq : List ℤ → Option ℤ)
    (data : List (ℤ × ℚ)) : Option FitState :=
  match data.getLast? with
  | none => none
  | some last =>
      some { lastDate := last.1, freq := (infer_freq (data.map Prod.fst)).getD 1 }

/-- Same fit-time bookkeeping in `src/models/prophet.py` lines 35-38. -/
def ProphetForecaster.fit (infer_freq : List ℤ → Option ℤ)
    (data : List (ℤ × ℚ)) : Option FitState :=
  match data.getLast? with
  | none => none
  | some last =>
      some { lastDate := last.1, freq := (infer_freq (data.map Prod.fst)).getD 1 }

/-- Same fit-time bookkeeping in `src/models/nbeats.py` lines 91-92. -/
def NBEATSForecaster.fit (infer_freq : List ℤ → Option ℤ)
    (data : List (ℤ × ℚ)) : Option FitState :=
  match data.getLast? with
  | none => none
  | some last =>
      some { lastDate := last.1, freq := (infer_freq (data.map Prod.fst)).getD 1 }

/-- Embedding of `pd.date_range(start=self._last_date + offset, periods=horizon,
freq=self._freq)` in `ARIMAForecaster.predict`: the `n` timestamps
`lastDate + freq, lastDate + 2*freq, ...` spaced by the fit-time frequency. -/
def futureDates (s : FitState) (n : ℕ) : List ℤ :=
  (List.range n).map fun i => s.lastDate + ((i + 1 : ℕ) : ℤ) * s.freq

/-- Embedding of `ARIMAForecaster.predict` (`src/models/arima.py` lines
48-71): guard `horizon < 1` first (`ValueError`, i.e. `InvalidConfiguration`),
then guard `self.model is None` (`ValueError`, i.e. `NotFittedError`), then
pair the future dates with the engine's forecast values. `engine` stands for
the opaque `self.model.forecast(steps=horizon)` value sequence. -/
def ARIMAForecaster.predict (engine : FitState → ℕ → ℚ)
    (model : Option FitState) (horizon : ℤ) :
    Except ForecastError (List (ℤ × ℚ)) :=
  if horizon < 1 then Except.error ForecastError.invalidConfiguration
  else
    match model with
    | none => Except.error ForecastError.notFitted
    | some s =>
        let forecast_values := (List.range horizon.toNat).map (engine s)
        let future_dates := futureDates s horizon.toNat
        Except.ok (future_dates.zip forecast_values)

/-- Embedding of `ProphetForecaster.predict` (`src/models/prophet.py` lines
64-85): identical guards in the same order; `make_future_dataframe(periods=
horizon, freq=self._freq)` followed by `.tail(horizon)` yields exactly the
`horizon` dates after the last training timestamp at the fit-time frequency,
paired with the engine's `yhat` values. -/
def ProphetForecaster.predict (engine : FitState → ℕ → ℚ)
    (model : Option FitState) (horizon : ℤ) :
    Except ForecastError (List (ℤ × ℚ)) :=
  if horizon < 1 then Except.error ForecastError.invalidConfiguration
  else
    match model with
    | none => Except.error ForecastError.notFitted
    | some s =>
        let forecast_values := (List.range horizon.toNat).map (engine s)
        let future_dates := futureDates s horizon.toNat
        Except.ok (future_dates.zip forecast_values)

/-- Embedding of `NBEATSForecaster.predict` (`src/models/nbeats.py` lines
141-175). The two guards (horizon first, then unfitted) are translated from
the source. Modelled from the spec: the time index of the darts forecast
(`forecast_ts.time_index`) is library code; per the spec it holds exactly
`horizon` future points at the inferred frequency immediately following the
last training timestamp. `engine` covers the network's predictions including
the optional inverse scaling. -/
def NBEATSForecaster.predict (engine : FitState → ℕ → ℚ)
    (model : Option FitState) (horizon : ℤ) :
    Except ForecastError (List (ℤ × ℚ)) :=
  if horizon < 1 then Except.error ForecastError.invalidConfiguration
  else
    match model with
    | none => Except.error ForecastError.notFitted
    | some s =>
        let forecast_values := (List.range horizon.toNat).map (engine s)
        let future_dates := futureDates s horizon.toNat
        Except.ok (future_dates.zip forecast_values)

/-- A trivial engine (all forecast values zero) used to evaluate the guard
logic at concrete inputs. -/
def zeroEngine : FitState → ℕ → ℚ := fun _ _ => 0

/-- Shape of a well-formed forecast for claim C7: exactly `horizon` points,
every timestamp strictly after the last fit-time timestamp, consecutive
timestamps spaced by the fit-time frequency, and the first point immediately
following the last training timestamp. -/
def forecastShapeOk (s : FitState) (horizon : ℤ) (out : List (ℤ × ℚ)) : Prop :=
  out.length = horizon.toNat ∧
  (∀ p ∈ out, s.lastDate < p.1) ∧
  List.Chain' (fun a b => b = a + s.freq) (out.map Prod.fst) ∧
  (out.map Prod.fst).head? = some (s.lastDate + s.freq)

instance (s : FitState) (horizon : ℤ) (out : List (ℤ × ℚ)) :
    Decidable (forecastShapeOk s horizon out) := by
  unfold forecastShapeOk; infer_instance

/-- Composite cache key of `ModelService.train_and_evaluate`
(`src/services/model_service.py` lines 12-21): `st.cache_resource` keys the
memo entry on every argument — model class, data, split percentage, horizon,
the dataset-version `upload_key`, and the hyperparameter values. -/
structure CacheKey where
  modelClass : String
  data : List (ℤ × ℚ)
  train_pct : ℕ
  horizon : ℕ
  uploadKey : ℕ
  hyperparams : List (String × ℤ)
deriving DecidableEq

/-- Modelled from the spec: the memo table of Streamlit's `@st.cache_resource`
decorator on `ModelService.train_and_evaluate` is framework code outside the
repository; per the spec's Training Cache contract it retains at most one
producer invocation per distinct key and returns the stored result on a key
hit. `producerCalls` counts producer invocations for the idempotence claim. -/
structure TrainingCache (ρ : Type) where
  entries : List (CacheKey × ρ)
  producerCalls : ℕ
deriving DecidableEq

/-- Modelled from the spec: `get_or_train(key, producer)` — return the stored
result on a key hit, otherwise run the producer once and retain its result. -/
def TrainingCache.get_or_train {ρ : Type} (cache : TrainingCache ρ)
    (key : CacheKey) (producer : Unit → ρ) : ρ × TrainingCache ρ :=
  match cache.entries.find? fun e => decide (e.1 = key) with
  | some e => (e.2, cache)
  | none =>
      let r := producer ()
      (r, { entries := (key, r) :: cache.entries,
            producerCalls := cache.producerCalls + 1 })

/-- Embedding of the cached entry point `ModelService.train_and_evaluate`
(`src/services/model_service.py` lines 12-59): assemble the cache key from all
arguments and consult the training cache; the producer stands for model
construction plus `ForecastModel.evaluate`. -/
def ModelService.train_and_evaluate {ρ : Type} (cache : TrainingCache ρ)
    (modelClass : String) (data : List (ℤ × ℚ)) (train_pct horizon uploadKey : ℕ)
    (hyperparams : List (String × ℤ)) (producer : Unit → ρ) :
    ρ × TrainingCache ρ :=
  TrainingCache.get_or_train cache
    { modelClass := modelClass, data := data, train_pct := train_pct,
      horizon := horizon, uploadKey := uploadKey, hyperparams := hyperparams }
    producer

/-- Embedding of the dataset-version bump in `AppState.clear_all_models`
(`src/state/app_state.py` line 214): `st.session_state.upload_key += 1`; the
rest of that method clears UI-facing result fields outside the core. -/
def AppState.clear_all_models (uploadKey : ℕ) : ℕ :=
  uploadKey + 1

/-- Outcome of the comparison gate in `render_comparison_tab`
(`src/ui/comparison_tab.py` lines 11-60). `incomparableResults` is the
`st.warning` listing every trained model with its recorded percentage followed
by `st.stop()` (the spec's `IncomparableResults`); `compared` carries the
verified common percentage and the recomputed canonical train/test split. -/
inductive ComparisonOutcome where
  | tooFew
  | incomparableResults (listing : List (String × ℕ))
  | compared (train_pct : ℕ) (train test : List (ℤ × ℚ))
deriving DecidableEq

/-- Embedding of the precondition check and split recomputation of
`render_comparison_tab` (`src/ui/comparison_tab.py` lines 11-46): with fewer
than two trained models, only an informational message; otherwise collect each
trained model's recorded `train_pct`, compare all against the first, fail with
the full listing when any differ, and on success recompute the shared split on
the current dataset. `train_pcts` is the association of trained model names to
their recorded training-time percentages. -/
def render_comparison_tab (train_pcts : List (String × ℕ))
    (historical_data : List (ℤ × ℚ)) : ComparisonOutcome :=
  if train_pcts.length < 2 then ComparisonOutcome.tooFew
  else
    let train_pct_values := train_pcts.map Prod.snd
    let all_same_split :=
      train_pct_values.all fun pct => decide (pct = train_pct_values.headD 0)
    if ¬ all_same_split then ComparisonOutcome.incomparableResults train_pcts
    else
      let train_pct := train_pct_values.headD 0
      let td := HoldoutPctSplitter.split train_pct historical_data
      ComparisonOutcome.compared train_pct td.1 td.2

/-- Semantics of Python's `min` over a list of float-or-None values as it
occurs in `render_metric_leaderboard`: empty input raises `ValueError`; a
single element is returned without comparison (even `None`); with two or more
elements any `None` participates in an order comparison and raises
`TypeError`. -/
def pyMinFloatOpt (l : List (Option ℚ)) : Except String (Option ℚ) :=
  match l with
  | [] => Except.error "ValueError"
  | [x] => Except.ok x
  | _ :: _ :: _ =>
      if l.any Option.isNone then Except.error "TypeError"
      else Except.ok l.reduceOption.min?

/-- Semantics of Python's `max` over a list of float-or-None values, dual to
`pyMinFloatOpt`. -/
def pyMaxFloatOpt (l : List (Option ℚ)) : Except String (Option ℚ) :=
  match l with
  | [] => Except.error "ValueError"
  | [x] => Except.ok x
  | _ :: _ :: _ =>
      if l.any Option.isNone then Except.error "TypeError"
      else Except.ok l.reduceOption.max?

/-- Display metadata of one metric as consumed by the leaderboard:
`name` and `lower_is_better` from `AVAILABLE_METRICS`. -/
structure MetricConfig where
  name : String
  lower_is_better : Bool
deriving DecidableEq

/-- Outcome of `render_metric_leaderboard`: `skipped` is the silent return
when the metric key is absent from the first result; `rendered` carries the
best model and one card per selected model (model name, its value, and its
signed delta against the best — `none` marking the best model's trophy card);
`raised` is an uncaught Python exception escaping the renderer. -/
inductive LeaderboardOutcome where
  | skipped
  | rendered (best_model : String) (cards : List (String × ℚ × Option ℚ))
  | raised (msg : String)
deriving DecidableEq

/-- Embedding of `render_metric_leaderboard` (`src/ui/comparison_tab.py` lines
86-139): skip when the metric key is missing from the first result; take each
model's stored value for the key; `best_value = min(...)`/`max(...)` per
`lower_is_better` (raising `TypeError` when a `None` is compared);
`best_model` is the first model attaining the best value; per selected model
render a card with a trophy for the best and the signed delta
`value - best_value` otherwise, where formatting a `None` value raises
`TypeError`. -/
def render_metric_leaderboard (metric_key : String) (metric_config : MetricConfig)
    (model_results : List (String × List (String × Option ℚ)))
    (selected_models : List String) : LeaderboardOutcome :=
  match model_results with
  | [] => LeaderboardOutcome.raised "IndexError"
  | first :: _ =>
      if ¬ (first.2.map Prod.fst).contains metric_key then
        LeaderboardOutcome.skipped
      else
        let metric_values :=
          model_results.map fun mr => (mr.1, (mr.2.lookup metric_key).join)
        let best :=
          if metric_config.lower_is_better then
            pyMinFloatOpt (metric_values.map Prod.snd)
          else
            pyMaxFloatOpt (metric_values.map Prod.snd)
        match best with
        | Except.error msg => LeaderboardOutcome.raised msg
        | Except.ok best_value =>
            let best_model :=
              ((metric_values.find? fun mv => decide (mv.2 = best_value)).map
                Prod.fst).getD ""
            let renderCard : String → Except String (String × ℚ × Option ℚ) :=
              fun model_name =>
                match (metric_values.lookup model_name).join with
                | none => Except.error "TypeError"
                | some v =>
                    if model_name = best_model then
                      Except.ok (model_name, v, none)
                    else
                      match best_value with
                      | none => Except.error "TypeError"
                      | some bv => Except.ok (model_name, v, some (v - bv))
            match selected_models.mapM renderCard with
            | Except.error msg => LeaderboardOutcome.raised msg
            | Except.ok cards => LeaderboardOutcome.rendered best_model cards

/-! ## Theorems -/

/-- Helper: the split index lies in `[1, n-1]` whenever `n ≥ 2`. -/
theorem splitIdx_bounds (n train_pct : ℕ) (hn : 2 ≤ n) :
    1 ≤ HoldoutPctSplitter.splitIdx n train_pct ∧
    HoldoutPctSplitter.splitIdx n train_pct ≤ n - 1 := by
  unfold HoldoutPctSplitter.splitIdx
  constructor
  · exact le_max_left _ _
  · have h1 : 1 ≤ n - 1 := by omega
    exact max_le h1 (min_le_left _ _)

/-- Helper: truncating natural division agrees with the floor of the exact
rational quotient. -/
theorem natDiv_eq_ratFloor (a b : ℕ) :
    (⌊(a : ℚ) / (b : ℚ)⌋).toNat = a / b := by
  rw [Int.floor_toNat, Nat.floor_div_nat ((a : ℚ)) b, Nat.floor_natCast]

/-- Helper: any chronological-order relation holding pairwise on the input
series holds between every train element and every test element. -/
theorem split_pairwise {α : Type} (train_pct : ℕ) (data : List α)
    (R : α → α → Prop) (hR : data.Pairwise R) :
    ∀ a ∈ (HoldoutPctSplitter.split train_pct data).1,
      ∀ b ∈ (HoldoutPctSplitter.split train_pct data).2, R a b := by
  have hsplit : (HoldoutPctSplitter.split train_pct data).1 ++
      (HoldoutPctSplitter.split train_pct data).2 = data := by
    simp [HoldoutPctSplitter.split]
  rw [← hsplit] at hR
  exact (List.pairwise_append.mp hR).2.2

/-- Claim C2 (counterexample): the spec says the split index rounds
`n * train_pct / 100` to the nearest integer before clamping, but the code's
`int(...)` truncates; on a 3-point series with `train_pct = 60` the code puts
1 point in train where the spec's rounding formula puts 2. -/
theorem claim_C2_counterexample :
    HoldoutPctSplitter.split 60 [(1 : ℕ), 2, 3] ≠
      HoldoutPctSplitter.splitRoundSpec 60 [(1 : ℕ), 2, 3] := by
  have h1 : HoldoutPctSplitter.split 60 [(1 : ℕ), 2, 3] = ([1], [2, 3]) := rfl
  have hidx : HoldoutPctSplitter.splitIdxRoundSpec 3 60 = 2 := by
    unfold HoldoutPctSplitter.splitIdxRoundSpec
    norm_num [round_eq]
  have h2 : HoldoutPctSplitter.splitRoundSpec 60 [(1 : ℕ), 2, 3] =
      ([1, 2], [3]) := by
    unfold HoldoutPctSplitter.splitRoundSpec
    rw [show ([(1 : ℕ), 2, 3].length) = 3 from rfl, hidx]
    rfl
  rw [h1, h2]
  decide

/-- Claim C2 (amended): for every series and every `train_pct` in (0,100),
`HoldoutPctSplitter.split` computes
`split_idx = clamp(floor(n * train_pct/100), lower=1, upper=n-1)` — truncating
the quotient rather than rounding it — and returns
`(series[0:split_idx], series[split_idx:n])`. -/
theorem claim_C2_amended {α : Type} (data : List α) (train_pct : ℕ)
    (h1 : 0 < train_pct) (h2 : train_pct < 100) :
    HoldoutPctSplitter.split train_pct data =
      (data.take (max 1 (min (data.length - 1)
          (⌊((data.length * train_pct : ℕ) : ℚ) / ((100 : ℕ) : ℚ)⌋.toNat))),
       data.drop (max 1 (min (data.length - 1)
          (⌊((data.length * train_pct : ℕ) : ℚ) / ((100 : ℕ) : ℚ)⌋.toNat)))) := by
  rw [HoldoutPctSplitter.split, HoldoutPctSplitter.splitIdx,
    natDiv_eq_ratFloor (data.length * train_pct) 100]

/-- Claim C2 (amended, witness): concrete instance at a 10-point series with
`train_pct = 80`. -/
theorem claim_C2_amended_witness :
    HoldoutPctSplitter.split 80 [(0 : ℕ), 1, 2, 3, 4, 5, 6, 7, 8, 9] =
      ([0, 1, 2, 3, 4, 5, 6, 7], [8, 9]) := by
  rw [claim_C2_amended [(0 : ℕ), 1, 2, 3, 4, 5, 6, 7, 8, 9] 80
    (by decide) (by decide), natDiv_eq_ratFloor]
  decide

/-- Claim C3 (code evaluation at the failing input): on a one-point series the
splitter raises nothing and returns the whole series as train with an empty
test set, while the out-of-range `train_pct` check of `__init__` does raise;
the claimed `n < 2` failure is absent from the code. -/
theorem claim_C3_code_eval :
    HoldoutPctSplitter.split 80 [(5 : ℕ)] = ([5], []) ∧
    HoldoutPctSplitter.split 80 ([] : List ℕ) = ([], []) ∧
    HoldoutPctSplitter.init 150 = Except.error () ∧
    HoldoutPctSplitter.init 80 = Except.ok 80 :=
  ⟨rfl, rfl, rfl, rfl⟩

/-- Claim C4: for every series of length `n ≥ 2` and `train_pct` in (0,100),
the split returns non-empty train and test whose lengths sum to `n`, and
train followed by test reassembles the series — contiguous slices, train
strictly first, no shuffling. -/
theorem claim_C4_split_invariants {α : Type} (data : List α) (train_pct : ℕ)
    (h1 : 0 < train_pct) (h2 : train_pct < 100) (hn : 2 ≤ data.length) :
    1 ≤ (HoldoutPctSplitter.split train_pct data).1.length ∧
    1 ≤ (HoldoutPctSplitter.split train_pct data).2.length ∧
    (HoldoutPctSplitter.split train_pct data).1.length +
      (HoldoutPctSplitter.split train_pct data).2.length = data.length ∧
    (HoldoutPctSplitter.split train_pct data).1 ++
      (HoldoutPctSplitter.split train_pct data).2 = data := by
  obtain ⟨hlo, hhi⟩ := splitIdx_bounds data.length train_pct hn
  have hle : HoldoutPctSplitter.splitIdx data.length train_pct ≤ data.length := by
    omega
  refine ⟨?_, ?_, ?_, ?_⟩
  · simpa [HoldoutPctSplitter.split, List.length_take] using
      le_min hlo (le_trans hlo hle)
  · simp only [HoldoutPctSplitter.split, List.length_drop]
    omega
  · simp only [HoldoutPctSplitter.split, List.length_take, List.length_drop]
    omega
  · simp [HoldoutPctSplitter.split]

/-- Claim C4 (witness): concrete instance at a 10-point series with
`train_pct = 80`. -/
theorem claim_C4_witness :
    1 ≤ (HoldoutPctSplitter.split 80 [(0 : ℕ), 1, 2, 3, 4, 5, 6, 7, 8, 9]).1.length ∧
    1 ≤ (HoldoutPctSplitter.split 80 [(0 : ℕ), 1, 2, 3, 4, 5, 6, 7, 8, 9]).2.length ∧
    (HoldoutPctSplitter.split 80 [(0 : ℕ), 1, 2, 3, 4, 5, 6, 7, 8, 9]).1.length +
      (HoldoutPctSplitter.split 80 [(0 : ℕ), 1, 2, 3, 4, 5, 6, 7, 8, 9]).2.length = 10 ∧
    (HoldoutPctSplitter.split 80 [(0 : ℕ), 1, 2, 3, 4, 5, 6, 7, 8, 9]).1 ++
      (HoldoutPctSplitter.split 80 [(0 : ℕ), 1, 2, 3, 4, 5, 6, 7, 8, 9]).2 =
      [0, 1, 2, 3, 4, 5, 6, 7, 8, 9] :=
  claim_C4_split_invariants [0, 1, 2, 3, 4, 5, 6, 7, 8, 9] 80
    (by decide) (by decide) (by decide)

/-- Claim C1: for every model, series, splitter, horizon and metric set,
`evaluate` performs the fixed two-phase sequence — split; fit on train;
predict `len(test)` giving the test predictions; compute metrics from the test
values against them; refit on the full series (discarding the train-only fit,
which holds because every variant's fit overwrites all prior internal state);
predict `horizon` giving the forecast; return
`(metrics, forecast, test_predictions)` — so the test predictions come from
the train-only fit and the delivered forecast from the full-data fit. -/
theorem claim_C1_evaluate_two_phase {σ : Type} (m : ForecastModel σ)
    (s0 : Option σ) (data : List ℚ) (splitter : List ℚ → List ℚ × List ℚ)
    (horizon : ℕ) (metric_functions : List (String × MetricFn))
    (hoverwrite : ∀ (s s' : Option σ) (d : List ℚ), m.fit s d = m.fit s' d) :
    m.evaluate s0 data splitter horizon metric_functions =
      (calculate_metrics (splitter data).2
          (m.predict (m.fit none (splitter data).1) (splitter data).2.length)
          metric_functions,
       m.predict (m.fit none data) horizon,
       m.predict (m.fit none (splitter data).1) (splitter data).2.length) := by
  have h1 : m.fit s0 (splitter data).1 = m.fit none (splitter data).1 :=
    hoverwrite _ _ _
  have h2 : m.fit (some (m.fit none (splitter data).1)) data =
      m.fit none data := hoverwrite _ _ _
  simp only [ForecastModel.evaluate, h1, h2]

/-- Claim C1 (witness): the repeat-last-value model on a 5-point series under
the 80 percent holdout with horizon 2 and no metrics: test predictions repeat
the last train value 4, the forecast repeats the last full-series value 5. -/
theorem claim_C1_witness :
    lastValueModel.evaluate none [(1 : ℚ), 2, 3, 4, 5]
        (HoldoutPctSplitter.split 80) 2 [] = ([], [5, 5], [4]) := by
  have h := claim_C1_evaluate_two_phase lastValueModel none [(1 : ℚ), 2, 3, 4, 5]
    (HoldoutPctSplitter.split 80) 2 [] (fun _ _ _ => rfl)
  rw [h]
  decide

/-- Helper: each entry of `calculate_metrics` keeps its metric's name. -/
theorem metricEntry_fst (actual predicted : List ℚ) (nf : String × MetricFn) :
    (metricEntry actual predicted nf).1 = nf.1 := by
  unfold metricEntry
  cases h : nf.2 actual predicted with
  | error e => rfl
  | ok v => by_cases hv : v.isNanOrInf <;> simp [hv]

/-- Helper: an entry's stored value is `None` exactly when its metric function
raises or returns NaN/Infinity. -/
theorem metricEntry_none_iff (actual predicted : List ℚ)
    (nf : String × MetricFn) :
    (metricEntry actual predicted nf).2 = none ↔
      metricFails nf.2 actual predicted = true := by
  unfold metricEntry metricFails
  cases h : nf.2 actual predicted with
  | error e => simp
  | ok v => by_cases hv : v.isNanOrInf <;> simp [hv]

/-- Claim C8: `calculate_metrics` returns exactly one entry per requested
metric in order (names preserved); entry `i` of the output is a function of
metric `i` alone, so one failing metric never affects the others and no
exception escapes; and an entry's value is `None` exactly when its function
raises or returns NaN/Infinity, otherwise the computed value is stored. -/
theorem claim_C8_calculate_metrics (actual predicted : List ℚ)
    (metric_functions : List (String × MetricFn)) (i : ℕ)
    (nf : String × MetricFn) :
    (calculate_metrics actual predicted metric_functions).map Prod.fst =
      metric_functions.map Prod.fst ∧
    (calculate_metrics actual predicted metric_functions)[i]? =
      (metric_functions[i]?).map (metricEntry actual predicted) ∧
    (metricEntry actual predicted nf).1 = nf.1 ∧
    ((metricEntry actual predicted nf).2 = none ↔
      metricFails nf.2 actual predicted = true) := by
  have hcm : calculate_metrics actual predicted metric_functions =
      metric_functions.map (metricEntry actual predicted) := rfl
  refine ⟨?_, ?_, metricEntry_fst actual predicted nf,
    metricEntry_none_iff actual predicted nf⟩
  · rw [hcm, List.map_map]
    exact List.map_congr_left fun x _ => metricEntry_fst actual predicted x
  · rw [hcm, List.getElem?_map]

/-- Claim C6 (counterexample): a `predict` call before any fit does not always
fail with `NotFittedError` — with horizon 0 the horizon guard runs first and
the unfitted ARIMA model fails with `InvalidConfiguration` instead. -/
theorem claim_C6_counterexample :
    ARIMAForecaster.predict zeroEngine none 0 =
      Except.error ForecastError.invalidConfiguration ∧
    ARIMAForecaster.predict zeroEngine none 0 ≠
      Except.error ForecastError.notFitted := by
  refine ⟨rfl, ?_⟩
  intro h
  exact Except.noConfusion h fun hh => ForecastError.noConfusion hh

/-- Claim C6 (amended): for every model variant (ARIMA, Prophet, N-BEATS),
every engine and every instance state, `predict h` fails with
`InvalidConfiguration` for every `h < 1` (in particular 0 and -1) regardless
of fitted state, because the horizon guard precedes the fitted-state guard;
and it fails with `NotFittedError` when called before any fit with `h ≥ 1`. -/
theorem claim_C6_amended (eA eP eN : FitState → ℕ → ℚ) (st : Option FitState) :
    (∀ h : ℤ, h < 1 →
      ARIMAForecaster.predict eA st h =
        Except.error ForecastError.invalidConfiguration ∧
      ProphetForecaster.predict eP st h =
        Except.error ForecastError.invalidConfiguration ∧
      NBEATSForecaster.predict eN st h =
        Except.error ForecastError.invalidConfiguration) ∧
    (∀ h : ℤ, 1 ≤ h →
      ARIMAForecaster.predict eA none h = Except.error ForecastError.notFitted ∧
      ProphetForecaster.predict eP none h = Except.error ForecastError.notFitted ∧
      NBEATSForecaster.predict eN none h = Except.error ForecastError.notFitted) := by
  constructor
  · intro h hh
    refine ⟨?_, ?_, ?_⟩ <;>
      simp [ARIMAForecaster.predict, ProphetForecaster.predict,
        NBEATSForecaster.predict, hh]
  · intro h hh
    refine ⟨?_, ?_, ?_⟩ <;>
      simp [ARIMAForecaster.predict, ProphetForecaster.predict,
        NBEATSForecaster.predict, not_lt.mpr hh]

/-- Claim C6 (amended, witness): concrete instances — a fitted ARIMA model
asked for horizon 0 gets `InvalidConfiguration`, an unfitted N-BEATS model
asked for horizon 5 gets `NotFittedError`. -/
theorem claim_C6_amended_witness :
    ARIMAForecaster.predict zeroEngine (some { lastDate := 0, freq := 1 }) 0 =
      Except.error ForecastError.invalidConfiguration ∧
    NBEATSForecaster.predict zeroEngine none 5 =
      Except.error ForecastError.notFitted :=
  ⟨((claim_C6_amended zeroEngine zeroEngine zeroEngine
      (some { lastDate := 0, freq := 1 })).1 0 (by decide)).1,
   ((claim_C6_amended zeroEngine zeroEngine zeroEngine none).2 5
      (by decide)).2.2⟩

/-- Helper: shape of the generated future-date sequence — `n` dates, all
strictly after the last fit date, consecutive dates one frequency step apart,
starting one step after the last fit date. -/
theorem futureDates_shape (s : FitState) (hfreq : 0 < s.freq) (n : ℕ)
    (hn : 0 < n) :
    (futureDates s n).length = n ∧
    (∀ t ∈ futureDates s n, s.lastDate < t) ∧
    List.Chain' (fun a b => b = a + s.freq) (futureDates s n) ∧
    (futureDates s n).head? = some (s.lastDate + s.freq) := by
  refine ⟨by simp [futureDates], ?_, ?_, ?_⟩
  · intro t ht
    simp only [futureDates, List.mem_map, List.mem_range] at ht
    obtain ⟨i, _, rfl⟩ := ht
    have hcast : (0 : ℤ) < ((i + 1 : ℕ) : ℤ) := by positivity
    have hpos : 0 < ((i + 1 : ℕ) : ℤ) * s.freq := mul_pos hcast hfreq
    linarith
  · unfold futureDates
    rw [List.chain'_map]
    obtain ⟨m, rfl⟩ : ∃ m, n = m + 1 := ⟨n - 1, by omega⟩
    rw [List.chain'_range_succ]
    intro i _
    push_cast
    ring
  · unfold futureDates
    obtain ⟨m, rfl⟩ : ∃ m, n = m + 1 := ⟨n - 1, by omega⟩
    rw [List.range_succ_eq_map]
    simp

/-- Helper: the forecast of a fitted model at a positive horizon, for any
engine: the full shape property of claim C7, stated for the ARIMA variant
(the Prophet and N-BEATS embeddings share the same date logic). -/
theorem arima_predict_ok_shape (e : FitState → ℕ → ℚ) (s : FitState)
    (hfreq : 0 < s.freq) (horizon : ℤ) (hh : 1 ≤ horizon) :
    ARIMAForecaster.predict e (some s) horizon =
      Except.ok ((futureDates s horizon.toNat).zip
        ((List.range horizon.toNat).map (e s))) ∧
    forecastShapeOk s horizon
      ((futureDates s horizon.toNat).zip
        ((List.range horizon.toNat).map (e s))) := by
  have hlen : (futureDates s horizon.toNat).length =
      ((List.range horizon.toNat).map (e s)).length := by
    simp [futureDates]
  have hfst : ((futureDates s horizon.toNat).zip
      ((List.range horizon.toNat).map (e s))).map Prod.fst =
      futureDates s horizon.toNat :=
    List.map_fst_zip _ _ (le_of_eq hlen)
  have hpos : 0 < horizon.toNat := by omega
  obtain ⟨hl, hmem, hchain, hhead⟩ := futureDates_shape s hfreq horizon.toNat hpos
  constructor
  · simp [ARIMAForecaster.predict, not_lt.mpr hh]
  · refine ⟨?_, ?_, ?_, ?_⟩
    · rw [List.length_zip, hl, List.length_map, List.length_range, min_self]
    · intro p hp
      exact hmem p.1 (by rw [← hfst]; exact List.mem_map_of_mem Prod.fst hp)
    · rw [hfst]; exact hchain
    · rw [hfst]; exact hhead

/-- Claim C7: for every fitted model variant (ARIMA, Prophet, N-BEATS), every
engine, and every horizon `h ≥ 1`, `predict h` returns a series of exactly `h`
points, every returned timestamp strictly exceeds the last timestamp seen at
fit time, consecutive timestamps are spaced at the fit-time-inferred
frequency, and the first point immediately follows the last training
timestamp. -/
theorem claim_C7_predict_shape (eA eP eN : FitState → ℕ → ℚ)
    (infer_freq : List ℤ → Option ℤ) (data : List (ℤ × ℚ)) (s : FitState)
    (hA : ARIMAForecaster.fit infer_freq data = some s)
    (hP : ProphetForecaster.fit infer_freq data = some s)
    (hN : NBEATSForecaster.fit infer_freq data = some s)
    (hfreq : 0 < s.freq) (horizon : ℤ) (hh : 1 ≤ horizon) :
    (∃ out, ARIMAForecaster.predict eA (ARIMAForecaster.fit infer_freq data)
        horizon = Except.ok out ∧ forecastShapeOk s horizon out) ∧
    (∃ out, ProphetForecaster.predict eP (ProphetForecaster.fit infer_freq data)
        horizon = Except.ok out ∧ forecastShapeOk s horizon out) ∧
    (∃ out, NBEATSForecaster.predict eN (NBEATSForecaster.fit infer_freq data)
        horizon = Except.ok out ∧ forecastShapeOk s horizon out) := by
  have hPA : ProphetForecaster.predict = ARIMAForecaster.predict := rfl
  have hNA : NBEATSForecaster.predict = ARIMAForecaster.predict := rfl
  rw [hA, hP, hN, hPA, hNA]
  refine ⟨⟨_, (arima_predict_ok_shape eA s hfreq horizon hh).1,
      (arima_predict_ok_shape eA s hfreq horizon hh).2⟩,
    ⟨_, (arima_predict_ok_shape eP s hfreq horizon hh).1,
      (arima_predict_ok_shape eP s hfreq horizon hh).2⟩,
    ⟨_, (arima_predict_ok_shape eN s hfreq horizon hh).1,
      (arima_predict_ok_shape eN s hfreq horizon hh).2⟩⟩

/-- Claim C7 (witness): concrete instance — a two-point daily series fitted
with no inferable frequency (daily fallback, step 1), horizon 2. -/
theorem claim_C7_witness :
    (∃ out, ARIMAForecaster.predict zeroEngine
        (ARIMAForecaster.fit (fun _ => none) [((0 : ℤ), (1 : ℚ)), (1, 2)]) 2 =
        Except.ok out ∧ forecastShapeOk { lastDate := 1, freq := 1 } 2 out) ∧
    (∃ out, ProphetForecaster.predict zeroEngine
        (ProphetForecaster.fit (fun _ => none) [((0 : ℤ), (1 : ℚ)), (1, 2)]) 2 =
        Except.ok out ∧ forecastShapeOk { lastDate := 1, freq := 1 } 2 out) ∧
    (∃ out, NBEATSForecaster.predict zeroEngine
        (NBEATSForecaster.fit (fun _ => none) [((0 : ℤ), (1 : ℚ)), (1, 2)]) 2 =
        Except.ok out ∧ forecastShapeOk { lastDate := 1, freq := 1 } 2 out) :=
  claim_C7_predict_shape zeroEngine zeroEngine zeroEngine (fun _ => none)
    [((0 : ℤ), (1 : ℚ)), (1, 2)] { lastDate := 1, freq := 1 }
    rfl rfl rfl (by decide) 2 (by decide)

/-- Claim C9: with at least two trained models whose recorded split
percentages are not all identical, the comparison tab fails with the
incomparable-results outcome listing every model with its recorded
percentage, and produces no comparison. -/
theorem claim_C9_incomparable (train_pcts : List (String × ℕ))
    (historical_data : List (ℤ × ℚ)) (h2 : 2 ≤ train_pcts.length)
    (hdiff : ∃ a ∈ train_pcts, ∃ b ∈ train_pcts, a.2 ≠ b.2) :
    render_comparison_tab train_pcts historical_data =
      ComparisonOutcome.incomparableResults train_pcts := by
  obtain ⟨a, ha, b, hb, hab⟩ := hdiff
  have hne : ¬ ((train_pcts.map Prod.snd).all
      (fun pct => decide (pct = (train_pcts.map Prod.snd).headD 0)) = true) := by
    intro hall
    rw [List.all_eq_true] at hall
    have ha2 := of_decide_eq_true (hall a.2 (List.mem_map_of_mem Prod.snd ha))
    have hb2 := of_decide_eq_true (hall b.2 (List.mem_map_of_mem Prod.snd hb))
    exact hab (ha2.trans hb2.symm)
  simp only [render_comparison_tab]
  rw [if_neg (by omega), if_pos hne]

/-- Claim C9 (witness): two results recorded under split percentages 80 and
70 trigger the incomparable-results failure naming both models and both
percentages. -/
theorem claim_C9_witness :
    render_comparison_tab [("ARIMA", 80), ("Prophet", 70)] [((0 : ℤ), (1 : ℚ))] =
      ComparisonOutcome.incomparableResults [("ARIMA", 80), ("Prophet", 70)] :=
  claim_C9_incomparable [("ARIMA", 80), ("Prophet", 70)] [((0 : ℤ), (1 : ℚ))]
    (by decide)
    ⟨("ARIMA", 80), by decide, ("Prophet", 70), by decide, by decide⟩

/-- Claim C10 (code evaluation at the failing input): when one compared
model's stored value for a metric is `None` — the degraded value
`calculate_metrics` produces on a metric failure — the leaderboard's
`min(...)` compares a float with `None` and the comparison view crashes with
`TypeError` instead of showing the gap as blank. -/
theorem claim_C10_none_crashes_leaderboard :
    render_metric_leaderboard "mae" { name := "MAE", lower_is_better := true }
      [("ARIMA", [("mae", some 2)]), ("Prophet", [("mae", none)])]
      ["ARIMA", "Prophet"] = LeaderboardOutcome.raised "TypeError" := by
  rfl

/-- Helper: a cache whose entries all carry dataset versions at most
`uploadKey` has no entry for a key at version `uploadKey + 1`. -/
theorem find_bumped_key_eq_none {ρ : Type} (entries : List (CacheKey × ρ))
    (modelClass : String) (data : List (ℤ × ℚ))
    (train_pct horizon uploadKey : ℕ) (hyperparams : List (String × ℤ))
    (hOld : ∀ e ∈ entries, e.1.uploadKey ≤ uploadKey) :
    entries.find? (fun e => decide (e.1 =
        { modelClass := modelClass, data := data, train_pct := train_pct,
          horizon := horizon, uploadKey := uploadKey + 1,
          hyperparams := hyperparams })) = none := by
  rw [List.find?_eq_none]
  intro e he
  have hv := hOld e he
  simp only [decide_eq_true_eq]
  intro hcontra
  have hup : e.1.uploadKey = uploadKey + 1 := by rw [hcontra]
  omega

/-- Claim C5: calling the cached training entry point twice with identical
model class, data, split percentage, horizon, dataset-version key and
hyperparameters invokes the producer at most once — the second call returns
the previously computed result and leaves the cache unchanged — and bumping
the dataset-version counter via `clear_all_models` makes the old entry
unreachable, so the same logical configuration triggers a fresh producer
invocation. -/
theorem claim_C5_cache_idempotent {ρ : Type} (cache : TrainingCache ρ)
    (modelClass : String) (data : List (ℤ × ℚ))
    (train_pct horizon uploadKey : ℕ) (hyperparams : List (String × ℤ))
    (producer : Unit → ρ)
    (hOld : ∀ e ∈ cache.entries, e.1.uploadKey ≤ uploadKey) :
    let first := ModelService.train_and_evaluate cache modelClass data
      train_pct horizon uploadKey hyperparams producer
    let second := ModelService.train_and_evaluate first.2 modelClass data
      train_pct horizon uploadKey hyperparams producer
    let bumped := ModelService.train_and_evaluate first.2 modelClass data
      train_pct horizon (AppState.clear_all_models uploadKey) hyperparams
      producer
    second = first ∧
    first.2.producerCalls ≤ cache.producerCalls + 1 ∧
    bumped.1 = producer () ∧
    bumped.2.producerCalls = first.2.producerCalls + 1 := by
  intro first second bumped
  set k : CacheKey :=
    { modelClass := modelClass, data := data, train_pct := train_pct,
      horizon := horizon, uploadKey := uploadKey,
      hyperparams := hyperparams } with hk
  have hbkey : AppState.clear_all_models uploadKey = uploadKey + 1 := rfl
  cases hfind : cache.entries.find? (fun e => decide (e.1 = k)) with
  | some e =>
      have hfirst : first = (e.2, cache) := by
        simp only [first, ModelService.train_and_evaluate,
          TrainingCache.get_or_train, ← hk, hfind]
      have hbump : bumped = (producer (),
          ⟨(⟨modelClass, data, train_pct, horizon, uploadKey + 1,
              hyperparams⟩, producer ()) :: cache.entries,
            cache.producerCalls + 1⟩) := by
        simp only [bumped, hfirst, ModelService.train_and_evaluate,
          TrainingCache.get_or_train, hbkey,
          find_bumped_key_eq_none cache.entries modelClass data train_pct
            horizon uploadKey hyperparams hOld]
      have hsecond : second = (e.2, cache) := by
        simp only [second, hfirst, ModelService.train_and_evaluate,
          TrainingCache.get_or_train, ← hk, hfind]
      refine ⟨hsecond.trans hfirst.symm, ?_, ?_, ?_⟩
      · rw [hfirst]; exact Nat.le_succ _
      · rw [hbump]
      · rw [hbump, hfirst]
  | none =>
      have hfirst : first = (producer (),
          { entries := (k, producer ()) :: cache.entries,
            producerCalls := cache.producerCalls + 1 }) := by
        simp only [first, ModelService.train_and_evaluate,
          TrainingCache.get_or_train, ← hk, hfind]
      have hfindcons : ((k, producer ()) :: cache.entries).find?
          (fun e => decide (e.1 = k)) = some (k, producer ()) :=
        List.find?_cons_of_pos _ (by simp)
      have hsecond : second = (producer (),
          { entries := (k, producer ()) :: cache.entries,
            producerCalls := cache.producerCalls + 1 }) := by
        simp only [second, hfirst, ModelService.train_and_evaluate,
          TrainingCache.get_or_train, ← hk, hfindcons]
      have hOldCons : ∀ e ∈ (k, producer ()) :: cache.entries,
          e.1.uploadKey ≤ uploadKey := by
        intro e he
        rcases List.mem_cons.mp he with rfl | hmem
        · exact le_of_eq rfl
        · exact hOld e hmem
      have hbump : bumped = (producer (),
          ⟨(⟨modelClass, data, train_pct, horizon, uploadKey + 1,
              hyperparams⟩, producer ()) :: (k, producer ()) :: cache.entries,
            cache.producerCalls + 1 + 1⟩) := by
        simp only [bumped, hfirst, ModelService.train_and_evaluate,
          TrainingCache.get_or_train, hbkey,
          find_bumped_key_eq_none ((k, producer ()) :: cache.entries)
            modelClass data train_pct horizon uploadKey hyperparams hOldCons]
      refine ⟨hsecond.trans hfirst.symm, ?_, ?_, ?_⟩
      · rw [hfirst]
      · rw [hbump]
      · rw [hbump, hfirst]

/-- Claim C5 (witness): concrete instance — an empty cache, one configuration,
a producer returning 7; the second identical call is a hit and the bumped-key
call recomputes. -/
theorem claim_C5_witness :
    let first := ModelService.train_and_evaluate
      ({ entries := [], producerCalls := 0 } : TrainingCache ℕ) "ARIMA"
      [((0 : ℤ), (1 : ℚ))] 80 30 0 [("p", 1)] (fun _ => 7)
    let second := ModelService.train_and_evaluate first.2 "ARIMA"
      [((0 : ℤ), (1 : ℚ))] 80 30 0 [("p", 1)] (fun _ => 7)
    let bumped := ModelService.train_and_evaluate first.2 "ARIMA"
      [((0 : ℤ), (1 : ℚ))] 80 30 (AppState.clear_all_models 0) [("p", 1)]
      (fun _ => 7)
    second = first ∧
    first.2.producerCalls ≤ 0 + 1 ∧
    bumped.1 = (fun _ : Unit => 7) () ∧
    bumped.2.producerCalls = first.2.producerCalls + 1 :=
  claim_C5_cache_idempotent
    ({ entries := [], producerCalls := 0 } : TrainingCache ℕ) "ARIMA"
    [((0 : ℤ), (1 : ℚ))] 80 30 0 [("p", 1)] (fun _ => 7)
    (by intro e he; exact absurd he (List.not_mem_nil e))
